import Mathlib

/-!
# Shallow embedding of `src/handler.py` (wan-video job handler)

The handler is a straight-line async generator: it validates two required
fields, maps a resolution string to two constants, calls five external
collaborators in sequence (image fetch, model construction, generate,
encode, upload), yields a fixed sequence of progress events, and catches
any exception from the external calls, classifying it into one of five
error-code strings by substring match on the lowercased message.

Modelling choices:
* Python dict events become association lists `List (String × Value)`,
  with fields listed in source order.
* Python floats (timestamps, shifts, duration) are modelled as `Rat`.
* Each `time.time()` call reads `clock k` for the k-th call on the
  executed path (call 0 is `start_time` at the top of the handler).
* External collaborators are oracles in a `World`: each call either
  returns a value (`ok`) or raises an exception with a message (`exn`).
  The single `try`/`except` around steps 3–7 is modelled by each
  collaborator failure flowing into the one failure event.
* The module-level `model_cache` dict becomes an explicit `ModelCache`
  record threaded in and out of the handler; membership of the key
  `'wan_i2v'` (resp. `'config'`) is `Option.isSome` of the field.
* Python string truthiness (`not image_url`, `negative if negative else …`)
  is `pyFalsy` / emptiness tests on the modelled strings.
* The list of external calls actually performed is returned alongside the
  events so that "no external calls occur" is a statement of the model.
-/

/-- Python-level values appearing in emitted event dicts. -/
inductive Value where
  | vStr : String → Value
  | vInt : Int → Value
  | vFloat : Rat → Value
deriving DecidableEq, Repr

/-- An emitted event: a Python dict, as an association list in source field order. -/
def Event : Type := List (String × Value)

instance : DecidableEq Event := by unfold Event; infer_instance

/-- Opaque handle for a decoded PIL image. -/
structure PILImage where
  imgId : Nat
deriving DecidableEq, Repr

/-- Opaque handle for a constructed `wan.WanI2V` model. -/
structure WanModel where
  modelId : Nat
deriving DecidableEq, Repr

/-- The parts of the external `WAN_CONFIGS['i2v-14B']` config object the handler reads. -/
structure WanConfig where
  sample_neg_prompt : String
  sample_fps : Int
deriving DecidableEq, Repr

/-- Opaque handle for the generated video tensor. -/
structure VideoTensor where
  tensorId : Nat
deriving DecidableEq, Repr

/-- Outcome of a call into external code: a value, or a raised exception's `str(e)`. -/
inductive CallResult (α : Type) where
  | ok : α → CallResult α
  | exn : String → CallResult α
deriving DecidableEq, Repr

/-- The keyword arguments of the `model.generate(...)` call (source lines 170–182). -/
structure GenArgs where
  prompt : String
  image : PILImage
  max_area : Int
  frame_num : Int
  shift : Rat
  sample_solver : String
  sampling_steps : Int
  guide_scale : Rat
  n_prompt : String
  seed : Int
  offload_model : Bool
deriving DecidableEq, Repr

/-- One external-collaborator invocation performed by the handler. -/
inductive ExtCall where
  | fetchImage : String → ExtCall
  | constructModel : String → ExtCall
  | generate : GenArgs → ExtCall
  | cacheVideo : String → ExtCall
  | upload : String → ExtCall
deriving DecidableEq, Repr

/-- The module-level `model_cache` dict: the two keys the code uses. -/
structure ModelCache where
  wan_i2v : Option WanModel
  config : Option WanConfig
deriving DecidableEq, Repr

/-- The environment of one handler run: clock readings and collaborator outcomes. -/
structure World where
  /-- `time.time()` readings: `clock k` is the k-th call on the executed path. -/
  clock : Nat → Rat
  /-- Outcome of the fetch-and-decode inside `download_image` (before wrapping). -/
  fetch : CallResult PILImage
  /-- `os.environ.get('MODEL_PATH')`. -/
  envModelPath : Option String
  /-- `os.path.exists` on the model path. -/
  pathExists : String → Bool
  /-- Outcome of the `wan.WanI2V(...)` construction. -/
  construct : CallResult WanModel
  /-- The external constant `WAN_CONFIGS['i2v-14B']`. -/
  wanCfg : WanConfig
  /-- The external constant table `MAX_AREA_CONFIGS`. -/
  maxAreaConfigs : String → Int
  /-- Outcome of `model.generate(...)`. -/
  genResult : CallResult VideoTensor
  /-- Outcome of `cache_video(...)`. -/
  encodeResult : CallResult Unit
  /-- Outcome of the POST inside `_upload`: `ok` carries `r.text`. -/
  uploadResp : CallResult String
  /-- `uuid.uuid4().hex`. -/
  uuidHex : String

/-- The job envelope: the handler reads `job["input"]` and (for logging only) `job["id"]`. -/
structure JobInput where
  image_url : Option String
  prompt : Option String
  negative : Option String
  seed : Option Int
  resolution : Option String
deriving DecidableEq, Repr

structure Job where
  input : JobInput
  id : Option String
deriving DecidableEq, Repr

/-- Python truthiness of `job_input.get(k)` for a string field: falsy iff absent or `""`. -/
def pyFalsy : Option String → Bool
  | none => true
  | some s => s.isEmpty

/-- Characters of a string, lowercased — models Python `s.lower()` at char level. -/
def lowerChars (s : String) : List Char :=
  s.data.map Char.toLower

/-- `charsStartWith n h`: the char list `n` is a prefix of `h` (helper for substring test). -/
def charsStartWith : List Char → List Char → Bool
  | [], _ => true
  | _ :: _, [] => false
  | n :: ns, h :: hs => n == h && charsStartWith ns hs

/-- `charsContain h n`: the char list `n` occurs contiguously inside `h` —
models Python `n in h` for strings. -/
def charsContain : List Char → List Char → Bool
  | [], n => n.isEmpty
  | h :: hs, n => charsStartWith n (h :: hs) || charsContain hs n

/-- Python `needle in hay.lower()`. -/
def inLower (needle : String) (hay : String) : Bool :=
  charsContain (lowerChars hay) needle.data

/-- The error classification chain of `async_generator_handler` (source lines 241–250). -/
def classify_error (msg : String) : String :=
  if inLower "download" msg then "DOWNLOAD_ERROR"
  else if inLower "model" msg then "MODEL_ERROR"
  else if inLower "memory" msg || inLower "cuda" msg then "MEMORY_ERROR"
  else if inLower "upload" msg then "UPLOAD_ERROR"
  else "GENERATION_ERROR"

/-- `download_image` (source lines 26–47): any failure of the fetch/decode is wrapped
into a `RuntimeError` whose message prefixes the source URL. -/
def download_image (url : String) (fetch : CallResult PILImage) : CallResult PILImage :=
  match fetch with
  | .ok img => .ok img
  | .exn e => .exn ("Failed to download image from " ++ url ++ ": " ++ e)

/-- `_upload` (source lines 49–62): on success the response text is stripped. -/
def upload_video (resp : CallResult String) : CallResult String :=
  match resp with
  | .ok t => .ok t.trim
  | .exn e => .exn e

/-- The `MODEL_PATH` default (source line 72). -/
def defaultModelPath : String := "/workspace/Wan2.1/models/Wan2.1-I2V-14B-720P"

/-- `load_model` (source lines 64–95): process-wide lazy cache keyed by `'wan_i2v'`.
Returns the result, the updated cache, and the list of construction calls performed. -/
def load_model (w : World) (c : ModelCache) :
    CallResult (WanModel × WanConfig) × ModelCache × List ExtCall :=
  match c.wan_i2v with
  | some m =>
    -- cache hit: `return model_cache['wan_i2v'], model_cache['config']`
    match c.config with
    | some cfg => (.ok (m, cfg), c, [])
    | none => (.exn "'config'", c, [])   -- dict KeyError (unreachable from handler runs)
  | none =>
    let model_path := w.envModelPath.getD defaultModelPath
    if w.pathExists model_path then
      match w.construct with
      | .ok model =>
        (.ok (model, w.wanCfg),
         { wan_i2v := some model, config := some w.wanCfg },
         [.constructModel model_path])
      | .exn e => (.exn e, c, [.constructModel model_path])
    else
      (.exn ("Model path not found: " ++ model_path), c, [])

/-- A progress yield (`status`, `progress`, `message`, `timestamp`). -/
def progressEvent (status : String) (progress : Int) (message : String) (ts : Rat) : Event :=
  [("status", .vStr status), ("progress", .vInt progress),
   ("message", .vStr message), ("timestamp", .vFloat ts)]

/-- A pre-flight validation failure yield: only three fields (source lines 109–113, 133–137). -/
def invalidInputEvent (err : String) : Event :=
  [("error", .vStr err), ("error_code", .vStr "INVALID_INPUT"), ("status", .vStr "failed")]

/-- The `except` block's failure yield (source lines 252–258): the raw message,
its classification, and two further clock readings. -/
def exceptionEvent (msg : String) (pt ts : Rat) : Event :=
  [("error", .vStr msg), ("error_code", .vStr (classify_error msg)),
   ("status", .vStr "failed"), ("processing_time", .vFloat pt), ("timestamp", .vFloat ts)]

/-- Python `round(x, 2)` on the Rat model of floats. -/
def round2 (x : Rat) : Rat :=
  (round (x * 100) : Int) / 100

/-- The terminal success yield (source lines 224–233). -/
def successEvent (video_url : String) (resolution : String) (seed : Int) (pt : Rat) : Event :=
  [("video_url", .vStr video_url), ("duration", .vFloat 5), ("resolution", .vStr resolution),
   ("seed", .vInt seed), ("processing_time", .vFloat (round2 pt)),
   ("status", .vStr "completed"),
   ("message", .vStr ("Video generation completed in " ++ toString (round2 pt) ++ "s")),
   ("timestamp", .vFloat pt)]

/-- Steps 3–7 of the handler (after validation and resolution mapping), source
lines 140–233, with the `except` block of lines 237–258 applied to every
collaborator failure.  `clock 0` was `start_time`; subsequent `time.time()`
calls use successive indices along the executed path. -/
def runSteps (w : World) (cache : ModelCache) (image_url prompt negative : String)
    (seed : Int) (resolution : String) (max_area : Int) (shift : Rat) :
    List Event × List ExtCall × ModelCache :=
  let start := w.clock 0
  let ev1 := progressEvent "downloading" 10 "Downloading input image..." (w.clock 1 - start)
  match download_image image_url w.fetch with
  | .exn e =>
    ([ev1, exceptionEvent e (w.clock 2 - start) (w.clock 3 - start)],
     [.fetchImage image_url], cache)
  | .ok image =>
    let ev2 := progressEvent "loading" 20 "Loading model..." (w.clock 2 - start)
    match load_model w cache with
    | (.exn e, cache', lcalls) =>
      ([ev1, ev2, exceptionEvent e (w.clock 3 - start) (w.clock 4 - start)],
       .fetchImage image_url :: lcalls, cache')
    | (.ok (_, cfg), cache', lcalls) =>
      let ev3 := progressEvent "generating" 30 "Starting video generation..." (w.clock 3 - start)
      let args : GenArgs :=
        { prompt := prompt
          image := image
          max_area := max_area
          frame_num := 81
          shift := shift
          sample_solver := "unipc"
          sampling_steps := 40
          guide_scale := 5
          n_prompt := if negative.isEmpty then cfg.sample_neg_prompt else negative
          seed := if seed ≥ 0 then seed else -1
          offload_model := true }
      match w.genResult with
      | .exn e =>
        ([ev1, ev2, ev3, exceptionEvent e (w.clock 4 - start) (w.clock 5 - start)],
         .fetchImage image_url :: lcalls ++ [.generate args], cache')
      | .ok _ =>
        let ev4 := progressEvent "saving" 80 "Saving video..." (w.clock 4 - start)
        let output_path := "/tmp/wan21_i2v_" ++ (w.uuidHex.take 8) ++ ".mp4"
        match w.encodeResult with
        | .exn e =>
          ([ev1, ev2, ev3, ev4, exceptionEvent e (w.clock 5 - start) (w.clock 6 - start)],
           .fetchImage image_url :: lcalls ++ [.generate args, .cacheVideo output_path], cache')
        | .ok _ =>
          let ev5 := progressEvent "uploading" 90 "Uploading video..." (w.clock 5 - start)
          match upload_video w.uploadResp with
          | .exn e =>
            ([ev1, ev2, ev3, ev4, ev5,
              exceptionEvent e (w.clock 6 - start) (w.clock 7 - start)],
             .fetchImage image_url :: lcalls ++
               [.generate args, .cacheVideo output_path, .upload output_path], cache')
          | .ok video_url =>
            let processing_time := w.clock 6 - start
            ([ev1, ev2, ev3, ev4, ev5,
              successEvent video_url resolution seed processing_time],
             .fetchImage image_url :: lcalls ++
               [.generate args, .cacheVideo output_path, .upload output_path], cache')

/-- `async_generator_handler` (source lines 97–258): the full event sequence of one
job, the external calls performed, and the updated model cache. -/
def async_generator_handler (w : World) (cache : ModelCache) (job : Job) :
    List Event × List ExtCall × ModelCache :=
  let job_input := job.input
  if pyFalsy job_input.image_url || pyFalsy job_input.prompt then
    ([invalidInputEvent "Missing required parameters: image_url and prompt"], [], cache)
  else
    let image_url := job_input.image_url.getD ""
    let prompt := job_input.prompt.getD ""
    let negative := job_input.negative.getD ""
    let seed := job_input.seed.getD (-1)
    let resolution := job_input.resolution.getD "720p"
    if resolution = "720p" then
      runSteps w cache image_url prompt negative seed resolution
        (w.maxAreaConfigs "1280*720") 5
    else if resolution = "480p" then
      runSteps w cache image_url prompt negative seed resolution
        (w.maxAreaConfigs "832*480") 3
    else
      ([invalidInputEvent ("Unsupported resolution: " ++ resolution ++
          ". Use '720p' or '480p'")], [], cache)

/-! ## Observation helpers on events -/

/-- Dict lookup on an event. -/
def fieldOf (e : Event) (k : String) : Option Value :=
  match e with
  | [] => none
  | (k', v) :: rest => if k' = k then some v else fieldOf rest k

/-- The `status` field, when it is a string. -/
def statusOf (e : Event) : Option String :=
  match fieldOf e "status" with
  | some (.vStr s) => some s
  | _ => none

/-- The `error_code` field, when it is a string. -/
def errorCodeOf (e : Event) : Option String :=
  match fieldOf e "error_code" with
  | some (.vStr s) => some s
  | _ => none

/-- The `error` field, when it is a string. -/
def errorMsgOf (e : Event) : Option String :=
  match fieldOf e "error" with
  | some (.vStr s) => some s
  | _ => none

/-- The `progress` field, when it is an integer. -/
def progressOf (e : Event) : Option Int :=
  match fieldOf e "progress" with
  | some (.vInt n) => some n
  | _ => none

/-- A terminal event: success (`completed`) or failure (`failed`). -/
def isTerminalEv (e : Event) : Bool :=
  statusOf e = some "completed" || statusOf e = some "failed"

/-- The field names of an event, in order. -/
def fieldNames (e : Event) : List String :=
  e.map Prod.fst

/-- The error code of the last emitted event, when that event is a failure. -/
def lastErrorCode (evs : List Event) : Option String :=
  match evs.getLast? with
  | some e => errorCodeOf e
  | none => none

/-! ## Concrete fixtures (used by witnesses and counterexamples) -/

/-- A run environment in which every collaborator succeeds. -/
def okWorld : World :=
  { clock := fun k => (k : Rat)
    fetch := .ok ⟨0⟩
    envModelPath := none
    pathExists := fun _ => true
    construct := .ok ⟨1⟩
    wanCfg := { sample_neg_prompt := "bad quality", sample_fps := 16 }
    maxAreaConfigs := fun _ => 921600
    genResult := .ok ⟨2⟩
    encodeResult := .ok ()
    uploadResp := .ok " https://files.catbox.moe/abc.mp4 "
    uuidHex := "0123456789abcdef" }

/-- The empty module-level `model_cache` at process start. -/
def emptyCache : ModelCache := { wan_i2v := none, config := none }

/-- A well-formed job (the spec's end-to-end scenario input). -/
def validJob : Job :=
  { input := { image_url := some "http://x/img.jpg", prompt := some "a cat",
               negative := none, seed := none, resolution := some "480p" }
    id := some "job-1" }

/-- A job whose `prompt` key is absent (the spec's `--test_input` scenario shape). -/
def missingPromptJob : Job :=
  { input := { image_url := some "http://x/img.jpg", prompt := none,
               negative := none, seed := none, resolution := none }
    id := none }

/-- A job whose `prompt` is present but the empty string. -/
def emptyPromptJob : Job :=
  { input := { image_url := some "http://x/img.jpg", prompt := some "",
               negative := none, seed := none, resolution := some "720p" }
    id := none }

/-- A job with an unsupported resolution string. -/
def badResolutionJob : Job :=
  { input := { image_url := some "http://x/img.jpg", prompt := some "a cat",
               negative := none, seed := none, resolution := some "1080p" }
    id := none }

/-- A job with a negative seed other than -1 and a non-empty negative prompt. -/
def seedJob : Job :=
  { input := { image_url := some "http://x/img.jpg", prompt := some "a cat",
               negative := some "blurry", seed := some (-7), resolution := some "720p" }
    id := some "job-2" }

/-- A run in which the upload POST raises with a message that contains both
`"model"` and `"upload"`. -/
def modelUploadFailWorld : World :=
  { okWorld with uploadResp := .exn "model upload failed" }

/-- A run in which the upload POST raises with a message containing `"upload"` and
none of the earlier-priority substrings. -/
def uploadFailWorld : World :=
  { okWorld with uploadResp := .exn "Failed to upload file" }

/-- A run in which the image fetch raises. -/
def fetchFailWorld : World :=
  { okWorld with fetch := .exn "connection timed out" }

/-- A model cache already populated by a previous job. -/
def cachedCache : ModelCache :=
  { wan_i2v := some ⟨5⟩
    config := some { sample_neg_prompt := "bq", sample_fps := 16 } }

/-- The failure classification exactly as the spec's sentence states it: inspect the
lowercase exception message for substrings, in priority order — `"download"`, else
`"model"`, else `"memory"` or `"cuda"`, else `"upload"`, else the catch-all. -/
def specErrorCode (msg : String) : String :=
  if inLower "download" msg then "DOWNLOAD_ERROR"
  else if inLower "model" msg then "MODEL_ERROR"
  else if inLower "memory" msg || inLower "cuda" msg then "MEMORY_ERROR"
  else if inLower "upload" msg then "UPLOAD_ERROR"
  else "GENERATION_ERROR"

/-! ## Small observation lemmas -/

@[simp] theorem statusOf_progressEvent (s : String) (p : Int) (m : String) (ts : Rat) :
    statusOf (progressEvent s p m ts) = some s := rfl

@[simp] theorem statusOf_invalidInputEvent (e : String) :
    statusOf (invalidInputEvent e) = some "failed" := rfl

@[simp] theorem statusOf_exceptionEvent (m : String) (pt ts : Rat) :
    statusOf (exceptionEvent m pt ts) = some "failed" := rfl

@[simp] theorem statusOf_successEvent (u r : String) (s : Int) (pt : Rat) :
    statusOf (successEvent u r s pt) = some "completed" := rfl

@[simp] theorem errorCodeOf_invalidInputEvent (e : String) :
    errorCodeOf (invalidInputEvent e) = some "INVALID_INPUT" := rfl

@[simp] theorem errorCodeOf_exceptionEvent (m : String) (pt ts : Rat) :
    errorCodeOf (exceptionEvent m pt ts) = some (classify_error m) := rfl

@[simp] theorem errorCodeOf_progressEvent (s : String) (p : Int) (m : String) (ts : Rat) :
    errorCodeOf (progressEvent s p m ts) = none := rfl

@[simp] theorem errorCodeOf_successEvent (u r : String) (s : Int) (pt : Rat) :
    errorCodeOf (successEvent u r s pt) = none := rfl

@[simp] theorem errorMsgOf_exceptionEvent (m : String) (pt ts : Rat) :
    errorMsgOf (exceptionEvent m pt ts) = some m := rfl

@[simp] theorem errorMsgOf_invalidInputEvent (e : String) :
    errorMsgOf (invalidInputEvent e) = some e := rfl

@[simp] theorem progressOf_progressEvent (s : String) (p : Int) (m : String) (ts : Rat) :
    progressOf (progressEvent s p m ts) = some p := rfl

@[simp] theorem progressOf_exceptionEvent (m : String) (pt ts : Rat) :
    progressOf (exceptionEvent m pt ts) = none := rfl

@[simp] theorem progressOf_invalidInputEvent (e : String) :
    progressOf (invalidInputEvent e) = none := rfl

@[simp] theorem progressOf_successEvent (u r : String) (s : Int) (pt : Rat) :
    progressOf (successEvent u r s pt) = none := rfl

@[simp] theorem isTerminalEv_invalidInputEvent (e : String) :
    isTerminalEv (invalidInputEvent e) = true := rfl

@[simp] theorem isTerminalEv_exceptionEvent (m : String) (pt ts : Rat) :
    isTerminalEv (exceptionEvent m pt ts) = true := rfl

@[simp] theorem isTerminalEv_successEvent (u r : String) (s : Int) (pt : Rat) :
    isTerminalEv (successEvent u r s pt) = true := rfl

@[simp] theorem fieldNames_invalidInputEvent (e : String) :
    fieldNames (invalidInputEvent e) = ["error", "error_code", "status"] := rfl

@[simp] theorem fieldNames_exceptionEvent (m : String) (pt ts : Rat) :
    fieldNames (exceptionEvent m pt ts) =
      ["error", "error_code", "status", "processing_time", "timestamp"] := rfl

@[simp] theorem fieldOf_exceptionEvent_processing_time (m : String) (pt ts : Rat) :
    fieldOf (exceptionEvent m pt ts) "processing_time" = some (.vFloat pt) := rfl

@[simp] theorem fieldOf_exceptionEvent_timestamp (m : String) (pt ts : Rat) :
    fieldOf (exceptionEvent m pt ts) "timestamp" = some (.vFloat ts) := rfl

@[simp] theorem fieldOf_invalidInputEvent_processing_time (e : String) :
    fieldOf (invalidInputEvent e) "processing_time" = none := rfl

@[simp] theorem fieldOf_invalidInputEvent_timestamp (e : String) :
    fieldOf (invalidInputEvent e) "timestamp" = none := rfl

@[simp] theorem fieldOf_successEvent_seed (u r : String) (s : Int) (pt : Rat) :
    fieldOf (successEvent u r s pt) "seed" = some (.vInt s) := rfl

@[simp] theorem fieldOf_successEvent_duration (u r : String) (s : Int) (pt : Rat) :
    fieldOf (successEvent u r s pt) "duration" = some (.vFloat 5) := rfl

/-! ## Substring lemmas for the classification chain -/

theorem string_data_append (s t : String) : (s ++ t).data = s.data ++ t.data := by
  cases s; cases t; rfl

theorem lowerChars_append (s t : String) :
    lowerChars (s ++ t) = lowerChars s ++ lowerChars t := by
  unfold lowerChars
  rw [string_data_append, List.map_append]

theorem charsStartWith_extend (n h ext : List Char) (hp : charsStartWith n h = true) :
    charsStartWith n (h ++ ext) = true := by
  induction n generalizing h with
  | nil => rfl
  | cons c cs ih =>
    cases h with
    | nil => simp [charsStartWith] at hp
    | cons d ds =>
      simp only [charsStartWith, Bool.and_eq_true, beq_iff_eq] at hp
      simp only [List.cons_append, charsStartWith, Bool.and_eq_true, beq_iff_eq]
      exact ⟨hp.1, ih ds hp.2⟩

theorem charsContain_nil_needle (h : List Char) : charsContain h [] = true := by
  cases h with
  | nil => rfl
  | cons c cs => simp [charsContain, charsStartWith]

theorem charsContain_extend (a b n : List Char) (hc : charsContain a n = true) :
    charsContain (a ++ b) n = true := by
  induction a with
  | nil =>
    cases n with
    | nil => exact charsContain_nil_needle b
    | cons x xs => simp [charsContain] at hc
  | cons c cs ih =>
    simp only [charsContain, Bool.or_eq_true] at hc
    simp only [List.cons_append, charsContain, Bool.or_eq_true]
    rcases hc with hp | hcc
    · exact Or.inl (charsStartWith_extend n (c :: cs) b hp)
    · exact Or.inr (ih hcc)

/-- If the needle occurs in `s`, it occurs in `s ++ t` (Python `in` on lowered text). -/
theorem inLower_append_left (needle s t : String) (h : inLower needle s = true) :
    inLower needle (s ++ t) = true := by
  unfold inLower at h ⊢
  rw [lowerChars_append]
  exact charsContain_extend _ _ _ h

theorem string_append_assoc (a b c : String) : a ++ b ++ c = a ++ (b ++ c) := by
  cases a
  cases b
  cases c
  show String.mk _ = String.mk _
  rw [List.append_assoc]

/-- Any message produced by the `download_image` wrapper classifies as `DOWNLOAD_ERROR`. -/
theorem classify_error_download_wrap (url e : String) :
    classify_error ("Failed to download image from " ++ url ++ ": " ++ e) =
      "DOWNLOAD_ERROR" := by
  have h : inLower "download" ("Failed to download image from " ++ (url ++ (": " ++ e))) =
      true :=
    inLower_append_left "download" "Failed to download image from " (url ++ (": " ++ e))
      (by decide)
  simp only [classify_error, string_append_assoc, h]
  rfl

/-- C1: every run of the handler emits a sequence ending in exactly one terminal
event (success or failure) — never both, never neither — and (in this total
embedding) never propagates an exception to the caller. -/
theorem C1_exactly_one_terminal_event (w : World) (cache : ModelCache) (job : Job) :
    ∃ t, (async_generator_handler w cache job).1.getLast? = some t ∧
      isTerminalEv t = true ∧
      (async_generator_handler w cache job).1.filter isTerminalEv = [t] := by
  unfold async_generator_handler runSteps
  by_cases h0 : (pyFalsy job.input.image_url || pyFalsy job.input.prompt) = true
  · simp [h0]
  · rcases hf : w.fetch with img | e
    all_goals rcases hlm : load_model w cache with ⟨⟨m, cfg⟩ | e2, c', lc⟩
    all_goals rcases hg : w.genResult with v | e3
    all_goals rcases henc : w.encodeResult with u | e4
    all_goals rcases hup : w.uploadResp with resp | e5
    all_goals by_cases h720 : job.input.resolution.getD "720p" = "720p"
    all_goals by_cases h480 : job.input.resolution.getD "720p" = "480p"
    all_goals simp [h0, h720, h480, hf, hlm, hg, henc, hup, download_image, upload_video,
      isTerminalEv]

/-- Failure events emitted from inside steps 3–7 all have the `except`-block shape:
an `exceptionEvent` of some caught message and two clock readings. -/
theorem runSteps_failed_mem_shape (w : World) (c : ModelCache) (iu p n : String)
    (s : Int) (r : String) (ma : Int) (sh : Rat) (e : Event)
    (he : e ∈ (runSteps w c iu p n s r ma sh).1)
    (hfail : statusOf e = some "failed") :
    ∃ m pt ts, e = exceptionEvent m pt ts := by
  rcases hf : w.fetch with img | em
  all_goals rcases hlm : load_model w c with ⟨⟨mm, cfg⟩ | e2, c', lc⟩
  all_goals rcases hg : w.genResult with v | e3
  all_goals rcases henc : w.encodeResult with u | e4
  all_goals rcases hup : w.uploadResp with resp | e5
  all_goals simp only [runSteps, download_image, upload_video, hf, hlm, hg, henc, hup] at he
  all_goals fin_cases he
  all_goals first
    | exact ⟨_, _, _, rfl⟩
    | simp at hfail

/-- C2 (counterexample): a job missing `prompt` yields a terminal failure event that
has no `processing_time` field and no `timestamp` field, contradicting the claim that
every terminal failure (including pre-flight `INVALID_INPUT` failures) carries both. -/
theorem C2_counterexample_invalid_input_lacks_processing_time :
    (async_generator_handler okWorld emptyCache missingPromptJob).1 =
      [invalidInputEvent "Missing required parameters: image_url and prompt"] ∧
    statusOf (invalidInputEvent "Missing required parameters: image_url and prompt") =
      some "failed" ∧
    fieldOf (invalidInputEvent "Missing required parameters: image_url and prompt")
      "processing_time" = none ∧
    fieldOf (invalidInputEvent "Missing required parameters: image_url and prompt")
      "timestamp" = none :=
  ⟨rfl, rfl, rfl, rfl⟩

/-- C2 (amended): every terminal failure event is either a pre-flight `INVALID_INPUT`
failure carrying exactly `error`, `error_code`, `status` (no `processing_time`, no
`timestamp`), or an exception-path failure carrying exactly `error` (string),
`error_code` (string), `status = "failed"`, `processing_time` (float) and
`timestamp` (float). -/
theorem C2_amended_failure_event_fields (w : World) (cache : ModelCache) (job : Job)
    (e : Event)
    (he : e ∈ (async_generator_handler w cache job).1)
    (hfail : statusOf e = some "failed") :
    (fieldNames e = ["error", "error_code", "status"] ∧
      errorCodeOf e = some "INVALID_INPUT" ∧ (∃ s, errorMsgOf e = some s)) ∨
    (fieldNames e = ["error", "error_code", "status", "processing_time", "timestamp"] ∧
      (∃ s, errorMsgOf e = some s) ∧ (∃ s, errorCodeOf e = some s) ∧
      (∃ q, fieldOf e "processing_time" = some (.vFloat q)) ∧
      (∃ q, fieldOf e "timestamp" = some (.vFloat q))) := by
  unfold async_generator_handler at he
  by_cases h0 : (pyFalsy job.input.image_url || pyFalsy job.input.prompt) = true
  · simp [h0] at he
    subst he
    simp
  · by_cases h720 : job.input.resolution.getD "720p" = "720p"
    · simp [h0, h720] at he
      obtain ⟨m, pt, ts, rfl⟩ := runSteps_failed_mem_shape _ _ _ _ _ _ _ _ _ _ he hfail
      simp
    · by_cases h480 : job.input.resolution.getD "720p" = "480p"
      · simp [h0, h720, h480] at he
        obtain ⟨m, pt, ts, rfl⟩ := runSteps_failed_mem_shape _ _ _ _ _ _ _ _ _ _ he hfail
        simp
      · simp [h0, h720, h480] at he
        subst he
        simp

/-- C2 (witness): the amended statement evaluated on a job missing `prompt`. -/
theorem C2_amended_failure_event_fields_witness :
    (fieldNames (invalidInputEvent "Missing required parameters: image_url and prompt") =
        ["error", "error_code", "status"] ∧
      errorCodeOf (invalidInputEvent "Missing required parameters: image_url and prompt") =
        some "INVALID_INPUT" ∧
      (∃ s, errorMsgOf (invalidInputEvent "Missing required parameters: image_url and prompt") =
        some s)) ∨
    (fieldNames (invalidInputEvent "Missing required parameters: image_url and prompt") =
        ["error", "error_code", "status", "processing_time", "timestamp"] ∧
      (∃ s, errorMsgOf (invalidInputEvent "Missing required parameters: image_url and prompt") =
        some s) ∧
      (∃ s, errorCodeOf (invalidInputEvent "Missing required parameters: image_url and prompt") =
        some s) ∧
      (∃ q, fieldOf (invalidInputEvent "Missing required parameters: image_url and prompt")
        "processing_time" = some (.vFloat q)) ∧
      (∃ q, fieldOf (invalidInputEvent "Missing required parameters: image_url and prompt")
        "timestamp" = some (.vFloat q))) :=
  C2_amended_failure_event_fields okWorld emptyCache missingPromptJob
    (invalidInputEvent "Missing required parameters: image_url and prompt")
    (by decide) (by decide)

/-- C3: a job missing `image_url` or `prompt`, or carrying a resolution other than
`"720p"`/`"480p"`, emits exactly one event — a terminal failure with
`error_code = "INVALID_INPUT"` — and no external collaborator is called. -/
theorem C3_invalid_input_single_event_no_calls (w : World) (cache : ModelCache) (job : Job)
    (h : job.input.image_url = none ∨ job.input.prompt = none ∨
         (∃ r, job.input.resolution = some r ∧ r ≠ "720p" ∧ r ≠ "480p")) :
    (∃ e, (async_generator_handler w cache job).1 = [e] ∧
       statusOf e = some "failed" ∧ errorCodeOf e = some "INVALID_INPUT") ∧
    (async_generator_handler w cache job).2.1 = [] := by
  unfold async_generator_handler
  rcases h with h | h | ⟨r, hr, h7, h4⟩
  · simp [h, pyFalsy]
  · simp [h, pyFalsy]
  · by_cases h0 : (pyFalsy job.input.image_url || pyFalsy job.input.prompt) = true
    · simp [h0]
    · simp [h0, hr, h7, h4]

/-- C3 (witness): the statement evaluated on a job missing `prompt`. -/
theorem C3_invalid_input_single_event_no_calls_witness :
    (∃ e, (async_generator_handler okWorld emptyCache missingPromptJob).1 = [e] ∧
       statusOf e = some "failed" ∧ errorCodeOf e = some "INVALID_INPUT") ∧
    (async_generator_handler okWorld emptyCache missingPromptJob).2.1 = [] :=
  C3_invalid_input_single_event_no_calls okWorld emptyCache missingPromptJob
    (Or.inr (Or.inl rfl))

/-- C4 (counterexample): a job whose `prompt` is present but equal to `""` IS rejected
by the pre-flight validation (Python truthiness), contradicting the claim that an empty
prompt string is not checked. -/
theorem C4_counterexample_empty_prompt_rejected :
    (async_generator_handler okWorld emptyCache emptyPromptJob).1 =
      [invalidInputEvent "Missing required parameters: image_url and prompt"] ∧
    lastErrorCode (async_generator_handler okWorld emptyCache emptyPromptJob).1 =
      some "INVALID_INPUT" ∧
    (async_generator_handler okWorld emptyCache emptyPromptJob).2.1 = [] ∧
    emptyPromptJob.input.prompt = some "" :=
  ⟨rfl, rfl, rfl, rfl⟩

/-- C4 (amended): the pre-flight validation checks exactly the truthiness of
`image_url` and `prompt` (absent or empty string both rejected) and the membership of
`resolution` in {"720p","480p"}; in particular an empty prompt string IS rejected, and
any job passing these three checks proceeds to the `downloading` step. -/
theorem C4_amended_validation_truthiness (w : World) (cache : ModelCache) (job : Job) :
    ((pyFalsy job.input.image_url || pyFalsy job.input.prompt) = true →
       async_generator_handler w cache job =
         ([invalidInputEvent "Missing required parameters: image_url and prompt"], [], cache)) ∧
    pyFalsy (some "") = true ∧
    ((pyFalsy job.input.image_url || pyFalsy job.input.prompt) = false →
       job.input.resolution.getD "720p" ≠ "720p" →
       job.input.resolution.getD "720p" ≠ "480p" →
       async_generator_handler w cache job =
         ([invalidInputEvent ("Unsupported resolution: " ++ job.input.resolution.getD "720p" ++
            ". Use '720p' or '480p'")], [], cache)) ∧
    ((pyFalsy job.input.image_url || pyFalsy job.input.prompt) = false →
       (job.input.resolution.getD "720p" = "720p" ∨
        job.input.resolution.getD "720p" = "480p") →
       (async_generator_handler w cache job).1.head? =
         some (progressEvent "downloading" 10 "Downloading input image..."
           (w.clock 1 - w.clock 0))) := by
  refine ⟨?_, rfl, ?_, ?_⟩
  · intro h0
    simp [async_generator_handler, h0]
  · intro h0 h7 h4
    simp [async_generator_handler, h0, h7, h4]
  · intro h0 hres
    rcases hres with h | h
    all_goals rcases hf : w.fetch with img | em
    all_goals rcases hlm : load_model w cache with ⟨⟨mm, cfg⟩ | e2, c', lc⟩
    all_goals rcases hg : w.genResult with v | e3
    all_goals rcases henc : w.encodeResult with u | e4
    all_goals rcases hup : w.uploadResp with resp | e5
    all_goals simp [async_generator_handler, runSteps, download_image, upload_video,
      h0, h, hf, hlm, hg, henc, hup]

/-- C4 (witness): the empty-prompt rejection and the pass-through case evaluated. -/
theorem C4_amended_validation_truthiness_witness :
    (async_generator_handler okWorld emptyCache emptyPromptJob =
      ([invalidInputEvent "Missing required parameters: image_url and prompt"], [],
        emptyCache)) ∧
    ((async_generator_handler okWorld emptyCache validJob).1.head? =
      some (progressEvent "downloading" 10 "Downloading input image..."
        (okWorld.clock 1 - okWorld.clock 0))) :=
  ⟨(C4_amended_validation_truthiness okWorld emptyCache emptyPromptJob).1 (by decide),
   (C4_amended_validation_truthiness okWorld emptyCache validJob).2.2.2 (by decide)
     (Or.inr (by decide))⟩

/-- C5: any run that reaches the terminal success event emitted exactly the statuses
`downloading, loading, generating, saving, uploading, completed` in that order, with
progress values `10, 20, 30, 80, 90` on the five progress events, monotonically
non-decreasing. -/
theorem C5_success_event_sequence (w : World) (cache : ModelCache) (job : Job)
    (h : ∃ e ∈ (async_generator_handler w cache job).1, statusOf e = some "completed") :
    (async_generator_handler w cache job).1.map statusOf =
      [some "downloading", some "loading", some "generating", some "saving",
       some "uploading", some "completed"] ∧
    (async_generator_handler w cache job).1.filterMap progressOf = [10, 20, 30, 80, 90] ∧
    List.Chain' (· ≤ ·) ((async_generator_handler w cache job).1.filterMap progressOf) := by
  unfold async_generator_handler runSteps at h ⊢
  by_cases h0 : (pyFalsy job.input.image_url || pyFalsy job.input.prompt) = true
  · simp [h0] at h
  · rcases hf : w.fetch with img | e
    all_goals rcases hlm : load_model w cache with ⟨⟨m, cfg⟩ | e2, c', lc⟩
    all_goals rcases hg : w.genResult with v | e3
    all_goals rcases henc : w.encodeResult with u | e4
    all_goals rcases hup : w.uploadResp with resp | e5
    all_goals by_cases h720 : job.input.resolution.getD "720p" = "720p"
    all_goals by_cases h480 : job.input.resolution.getD "720p" = "480p"
    all_goals simp_all [download_image, upload_video]

/-- C5 (witness): the status/progress sequence of a fully successful run. -/
theorem C5_success_event_sequence_witness :
    (async_generator_handler okWorld emptyCache validJob).1.map statusOf =
      [some "downloading", some "loading", some "generating", some "saving",
       some "uploading", some "completed"] ∧
    (async_generator_handler okWorld emptyCache validJob).1.filterMap progressOf =
      [10, 20, 30, 80, 90] ∧
    List.Chain' (· ≤ ·)
      ((async_generator_handler okWorld emptyCache validJob).1.filterMap progressOf) :=
  C5_success_event_sequence okWorld emptyCache validJob (by decide)

/-- C6: every failure event caught from steps 3–7 (i.e. any failed event other than the
pre-flight `INVALID_INPUT` ones) carries the caught exception's message verbatim in
`error`, and its `error_code` is determined from that message by the spec's priority
chain of lowercase substring tests (`specErrorCode`). -/
theorem C6_error_classification_priority (w : World) (cache : ModelCache) (job : Job)
    (e : Event)
    (he : e ∈ (async_generator_handler w cache job).1)
    (hfail : statusOf e = some "failed")
    (hcode : errorCodeOf e ≠ some "INVALID_INPUT") :
    ∃ m pt ts, e = exceptionEvent m pt ts ∧ errorMsgOf e = some m ∧
      errorCodeOf e = some (specErrorCode m) := by
  unfold async_generator_handler at he
  by_cases h0 : (pyFalsy job.input.image_url || pyFalsy job.input.prompt) = true
  · simp [h0] at he
    subst he
    simp at hcode
  · by_cases h720 : job.input.resolution.getD "720p" = "720p"
    · simp [h0, h720] at he
      obtain ⟨m, pt, ts, rfl⟩ := runSteps_failed_mem_shape _ _ _ _ _ _ _ _ _ _ he hfail
      exact ⟨m, pt, ts, rfl, by simp, by simp [specErrorCode, classify_error]⟩
    · by_cases h480 : job.input.resolution.getD "720p" = "480p"
      · simp [h0, h720, h480] at he
        obtain ⟨m, pt, ts, rfl⟩ := runSteps_failed_mem_shape _ _ _ _ _ _ _ _ _ _ he hfail
        exact ⟨m, pt, ts, rfl, by simp, by simp [specErrorCode, classify_error]⟩
      · simp [h0, h720, h480] at he
        subst he
        simp at hcode

/-- Helper: the last element of a list is a member of it. -/
theorem mem_of_getLast_eq_some {α : Type} {l : List α} {a : α}
    (h : l.getLast? = some a) : a ∈ l := by
  induction l with
  | nil => simp at h
  | cons b bs ih =>
    cases bs with
    | nil =>
      simp only [List.getLast?_singleton, Option.some.injEq] at h
      simp [h]
    | cons c cs =>
      rw [List.getLast?_cons_cons] at h
      exact List.mem_cons_of_mem _ (ih h)

/-- C6 (witness): the classification of the failure event of a run whose upload POST
raised `"model upload failed"`. -/
theorem C6_error_classification_priority_witness :
    ∃ m pt ts,
      exceptionEvent "model upload failed"
        (modelUploadFailWorld.clock 6 - modelUploadFailWorld.clock 0)
        (modelUploadFailWorld.clock 7 - modelUploadFailWorld.clock 0) =
        exceptionEvent m pt ts ∧
      errorMsgOf (exceptionEvent "model upload failed"
        (modelUploadFailWorld.clock 6 - modelUploadFailWorld.clock 0)
        (modelUploadFailWorld.clock 7 - modelUploadFailWorld.clock 0)) = some m ∧
      errorCodeOf (exceptionEvent "model upload failed"
        (modelUploadFailWorld.clock 6 - modelUploadFailWorld.clock 0)
        (modelUploadFailWorld.clock 7 - modelUploadFailWorld.clock 0)) =
        some (specErrorCode m) :=
  C6_error_classification_priority modelUploadFailWorld emptyCache validJob
    (exceptionEvent "model upload failed"
      (modelUploadFailWorld.clock 6 - modelUploadFailWorld.clock 0)
      (modelUploadFailWorld.clock 7 - modelUploadFailWorld.clock 0))
    (mem_of_getLast_eq_some rfl) (by decide) (by decide)

/-- C7 (counterexample): the upload step raises an exception whose lowercase message
contains `"upload"` (namely `"model upload failed"`), yet the terminal failure event
has `error_code = "MODEL_ERROR"`, because `"model"` is tested before `"upload"`. -/
theorem C7_counterexample_model_upload_message :
    modelUploadFailWorld.uploadResp = .exn "model upload failed" ∧
    inLower "upload" "model upload failed" = true ∧
    lastErrorCode (async_generator_handler modelUploadFailWorld emptyCache validJob).1 =
      some "MODEL_ERROR" :=
  ⟨rfl, by decide, by decide⟩

/-- C7 (amended): if the upload step raises an exception whose lowercase message
contains `"upload"` and contains none of the higher-priority substrings `"download"`,
`"model"`, `"memory"`, `"cuda"`, then the terminal failure event has
`error_code = "UPLOAD_ERROR"`. -/
theorem C7_amended_upload_error_without_higher_substring (w : World) (cache : ModelCache)
    (job : Job) (img : PILImage) (pr : WanModel × WanConfig) (v : VideoTensor) (msg : String)
    (hv : (pyFalsy job.input.image_url || pyFalsy job.input.prompt) = false)
    (hres : job.input.resolution.getD "720p" = "720p" ∨
            job.input.resolution.getD "720p" = "480p")
    (hf : w.fetch = .ok img)
    (hlm : (load_model w cache).1 = .ok pr)
    (hg : w.genResult = .ok v)
    (henc : w.encodeResult = .ok ())
    (hup : w.uploadResp = .exn msg)
    (hupl : inLower "upload" msg = true)
    (hdl : inLower "download" msg = false)
    (hmd : inLower "model" msg = false)
    (hmem : inLower "memory" msg = false)
    (hcu : inLower "cuda" msg = false) :
    lastErrorCode (async_generator_handler w cache job).1 = some "UPLOAD_ERROR" := by
  rcases hstate : load_model w cache with ⟨res, c', lc⟩
  rw [hstate] at hlm
  simp at hlm
  subst hlm
  rcases pr with ⟨mm, cfg⟩
  rcases hres with h | h
  all_goals simp [async_generator_handler, runSteps, download_image, upload_video,
    hv, h, hf, hstate, hg, henc, hup, lastErrorCode, classify_error, hupl, hdl, hmd, hmem, hcu]

/-- C7 (witness): a run whose upload raises `"Failed to upload file"` ends with
`error_code = "UPLOAD_ERROR"`. -/
theorem C7_amended_upload_error_without_higher_substring_witness :
    lastErrorCode (async_generator_handler uploadFailWorld emptyCache validJob).1 =
      some "UPLOAD_ERROR" :=
  C7_amended_upload_error_without_higher_substring uploadFailWorld emptyCache validJob
    ⟨0⟩ (⟨1⟩, { sample_neg_prompt := "bad quality", sample_fps := 16 }) ⟨2⟩
    "Failed to upload file" (by decide) (Or.inr (by decide)) rfl (by decide) rfl rfl rfl
    (by decide) (by decide) (by decide) (by decide) (by decide)

/-- C8: on a successful run the terminal event echoes the input `seed` verbatim
(default -1 when absent) and carries `duration = 5.0`, while the seed passed to the
model's generate call is the input seed when it is ≥ 0 and -1 otherwise. -/
theorem C8_seed_echo_duration_and_generate_seed (w : World) (cache : ModelCache)
    (job : Job) (img : PILImage) (pr : WanModel × WanConfig) (v : VideoTensor) (t : String)
    (hv : (pyFalsy job.input.image_url || pyFalsy job.input.prompt) = false)
    (hres : job.input.resolution.getD "720p" = "720p" ∨
            job.input.resolution.getD "720p" = "480p")
    (hf : w.fetch = .ok img)
    (hlm : (load_model w cache).1 = .ok pr)
    (hg : w.genResult = .ok v)
    (henc : w.encodeResult = .ok ())
    (hup : w.uploadResp = .ok t) :
    ∃ ev, (async_generator_handler w cache job).1.getLast? = some ev ∧
      fieldOf ev "seed" = some (.vInt (job.input.seed.getD (-1))) ∧
      fieldOf ev "duration" = some (.vFloat 5) ∧
      ∃ a, ExtCall.generate a ∈ (async_generator_handler w cache job).2.1 ∧
        a.seed = (if job.input.seed.getD (-1) ≥ 0 then job.input.seed.getD (-1) else -1) := by
  rcases hstate : load_model w cache with ⟨res, c', lc⟩
  rw [hstate] at hlm
  simp at hlm
  subst hlm
  rcases pr with ⟨mm, cfg⟩
  rcases hres with h | h
  all_goals simp [async_generator_handler, runSteps, download_image, upload_video,
    hv, h, hf, hstate, hg, henc, hup]
  all_goals exact ⟨_, Or.inr rfl, rfl⟩

/-- C8 (witness): a successful run with input `seed = -7` echoes `-7` in the success
event while passing `-1` to the generate call, with `duration = 5.0`. -/
theorem C8_seed_echo_duration_and_generate_seed_witness :
    ∃ ev, (async_generator_handler okWorld emptyCache seedJob).1.getLast? = some ev ∧
      fieldOf ev "seed" = some (.vInt (seedJob.input.seed.getD (-1))) ∧
      fieldOf ev "duration" = some (.vFloat 5) ∧
      ∃ a, ExtCall.generate a ∈ (async_generator_handler okWorld emptyCache seedJob).2.1 ∧
        a.seed = (if seedJob.input.seed.getD (-1) ≥ 0 then seedJob.input.seed.getD (-1)
                  else -1) :=
  C8_seed_echo_duration_and_generate_seed okWorld emptyCache seedJob
    ⟨0⟩ (⟨1⟩, { sample_neg_prompt := "bad quality", sample_fps := 16 }) ⟨2⟩
    " https://files.catbox.moe/abc.mp4 " (by decide) (Or.inl (by decide)) rfl (by decide)
    rfl rfl rfl

/-- C9: the model cache is a process-wide lazy singleton — a populated cache is
returned as-is with no construction call; a first successful load constructs once and
stores the pair; and no handler run ever evicts or replaces a populated cache entry or
re-invokes construction. -/
theorem C9_model_cache_lazy_singleton :
    (∀ (w : World) (c : ModelCache) m cfg, c.wan_i2v = some m → c.config = some cfg →
        load_model w c = (.ok (m, cfg), c, [])) ∧
    (∀ (w : World) (c : ModelCache) model, c.wan_i2v = none →
        w.pathExists (w.envModelPath.getD defaultModelPath) = true →
        w.construct = .ok model →
        load_model w c = (.ok (model, w.wanCfg),
          { wan_i2v := some model, config := some w.wanCfg },
          [.constructModel (w.envModelPath.getD defaultModelPath)])) ∧
    (∀ (w : World) (cache : ModelCache) (job : Job) m, cache.wan_i2v = some m →
        ((async_generator_handler w cache job).2.2.wan_i2v = some m ∧
         (async_generator_handler w cache job).2.2.config = cache.config ∧
         ∀ pth, ExtCall.constructModel pth ∉ (async_generator_handler w cache job).2.1)) := by
  refine ⟨?_, ?_, ?_⟩
  · intro w c m cfg hm hc
    simp [load_model, hm, hc]
  · intro w c model hm hp hc
    simp [load_model, hm, hp, hc]
  · intro w cache job m hm
    rcases hcfg : cache.config with _ | cfg
    all_goals rcases hf : w.fetch with img | e
    all_goals rcases hg : w.genResult with v | e3
    all_goals rcases henc : w.encodeResult with u | e4
    all_goals rcases hup : w.uploadResp with resp | e5
    all_goals by_cases h0 : (pyFalsy job.input.image_url || pyFalsy job.input.prompt) = true
    all_goals by_cases h720 : job.input.resolution.getD "720p" = "720p"
    all_goals by_cases h480 : job.input.resolution.getD "720p" = "480p"
    all_goals simp [async_generator_handler, runSteps, download_image, upload_video,
      load_model, hm, hcfg, h0, h720, h480, hf, hg, henc, hup]

/-- C9 (witness): a populated cache is returned unchanged with no construction, and a
handler run on it preserves the entry with no construction call. -/
theorem C9_model_cache_lazy_singleton_witness :
    load_model okWorld cachedCache =
      (.ok (⟨5⟩, { sample_neg_prompt := "bq", sample_fps := 16 }), cachedCache, []) ∧
    ((async_generator_handler okWorld cachedCache validJob).2.2.wan_i2v = some ⟨5⟩ ∧
     (async_generator_handler okWorld cachedCache validJob).2.2.config =
       cachedCache.config ∧
     ∀ pth, ExtCall.constructModel pth ∉
       (async_generator_handler okWorld cachedCache validJob).2.1) :=
  ⟨C9_model_cache_lazy_singleton.1 okWorld cachedCache ⟨5⟩
      { sample_neg_prompt := "bq", sample_fps := 16 } rfl rfl,
   C9_model_cache_lazy_singleton.2.2 okWorld cachedCache validJob ⟨5⟩ rfl⟩

/-- C10: `download_image` wraps any underlying failure into a message prefixed with
`"Failed to download image from <url>"`; that message always classifies as
`DOWNLOAD_ERROR` (the highest-priority test), so any run whose image-download step
fails ends with `error_code = "DOWNLOAD_ERROR"`. -/
theorem C10_download_failures_classified_download_error :
    (∀ url e, download_image url (.exn e) =
        .exn ("Failed to download image from " ++ url ++ ": " ++ e)) ∧
    (∀ url e, classify_error ("Failed to download image from " ++ url ++ ": " ++ e) =
        "DOWNLOAD_ERROR") ∧
    (∀ (w : World) (cache : ModelCache) (job : Job) m,
      (pyFalsy job.input.image_url || pyFalsy job.input.prompt) = false →
      (job.input.resolution.getD "720p" = "720p" ∨
       job.input.resolution.getD "720p" = "480p") →
      w.fetch = .exn m →
      lastErrorCode (async_generator_handler w cache job).1 = some "DOWNLOAD_ERROR") := by
  refine ⟨fun url e => rfl, classify_error_download_wrap, ?_⟩
  intro w cache job m hv hres hf
  rcases hres with h | h
  all_goals simp [async_generator_handler, runSteps, download_image, hv, h, hf, lastErrorCode,
    classify_error_download_wrap]

/-- C10 (witness): a concrete failed download run ends with `DOWNLOAD_ERROR`. -/
theorem C10_download_failures_classified_download_error_witness :
    download_image "http://x/img.jpg" (.exn "connection timed out") =
      .exn ("Failed to download image from " ++ "http://x/img.jpg" ++ ": " ++
        "connection timed out") ∧
    classify_error ("Failed to download image from " ++ "http://x/img.jpg" ++ ": " ++
        "connection timed out") = "DOWNLOAD_ERROR" ∧
    lastErrorCode (async_generator_handler fetchFailWorld emptyCache validJob).1 =
      some "DOWNLOAD_ERROR" :=
  ⟨C10_download_failures_classified_download_error.1 "http://x/img.jpg" "connection timed out",
   C10_download_failures_classified_download_error.2.1 "http://x/img.jpg"
     "connection timed out",
   C10_download_failures_classified_download_error.2.2 fetchFailWorld emptyCache validJob
     "connection timed out" (by decide) (Or.inr (by decide)) rfl⟩
